import Mathlib

/-!
A shallow embedding of the Hybrid Consensus & Monitoring Engine of the
`deteccion_fraude` repository, together with theorems settling the frozen
claims about it.

Sources embedded:
* `src/monitoring.py` — class `CreditRiskMonitor`: the in-memory metrics
  dictionary, `log_prediction`, `log_error`, `get_metrics_summary`,
  `_check_alerts`, `_get_system_status`.
* `src/api_with_monitoring.py` — the final-recommendation combination
  (lines 124-130 of `predict_credit_risk`).
* `src/data_generation.py` — `BedrockClient._parse_classification_response`
  and the failure branch of `BedrockClient.classify_credit_risk`.

Modelling conventions:
* Python floats (latencies, probabilities, confidences, rates) are modelled
  as rationals `ℚ`; the thresholds `0.7`, `70`, `5` are exact in both.
* Wall-clock timestamps are modelled as integer seconds (`Int`).  Python's
  `(datetime.now() - t).seconds` on a `timedelta` of `d` whole seconds is
  `d.emod 86400` (the normalised seconds component of a timedelta), which is
  how it is embedded below.
* Methods that only log or write to files keep their observable effect on the
  in-memory metrics state; the logging itself is I/O and is dropped.
-/

/-! ## Data model: the in-memory metrics state of `CreditRiskMonitor` -/

/-- One entry of `self.metrics['predictions']`, as built by
`CreditRiskMonitor.log_prediction` (monitoring.py lines 40-49); the
`request` payload is irrelevant to every claim and omitted. -/
structure PredictionLog where
  timestamp : Int
  ml_prediction : String
  ml_probability : ℚ
  bedrock_prediction : String
  bedrock_confidence : ℚ
  agreement : Bool
  response_time : ℚ
deriving DecidableEq, Repr

/-- One entry of `self.metrics['errors']`, as built by
`CreditRiskMonitor.log_error` (monitoring.py lines 72-77). -/
structure ErrorLog where
  timestamp : Int
  error_type : String
  error_message : String
deriving DecidableEq, Repr

/-- The `self.metrics` dictionary of `CreditRiskMonitor.__init__`
(monitoring.py lines 27-34): parallel lists plus the error log. -/
structure Metrics where
  predictions : List PredictionLog
  response_times : List ℚ
  ml_predictions : List String
  bedrock_predictions : List String
  agreements : List Bool
  errors : List ErrorLog
deriving DecidableEq, Repr

/-- The freshly-initialised metrics state: every list empty. -/
def initMetrics : Metrics := ⟨[], [], [], [], [], []⟩

/-- `CreditRiskMonitor.log_prediction` (monitoring.py lines 36-67): builds a
prediction log entry with `agreement = (ml_result == bedrock_result)` and
appends it, in lockstep, to each of the parallel metric lists.  The file
write and the `_check_alerts` call have no effect on the state. -/
def logPrediction (m : Metrics) (now : Int) (ml_result : String) (ml_prob : ℚ)
    (bedrock_result : String) (bedrock_conf : ℚ) (response_time : ℚ) : Metrics :=
  let entry : PredictionLog :=
    { timestamp := now
      ml_prediction := ml_result
      ml_probability := ml_prob
      bedrock_prediction := bedrock_result
      bedrock_confidence := bedrock_conf
      agreement := ml_result = bedrock_result
      response_time := response_time }
  { m with
      predictions := m.predictions ++ [entry]
      response_times := m.response_times ++ [response_time]
      ml_predictions := m.ml_predictions ++ [ml_result]
      bedrock_predictions := m.bedrock_predictions ++ [bedrock_result]
      agreements := m.agreements ++ [decide (ml_result = bedrock_result)] }

/-- `CreditRiskMonitor.log_error` (monitoring.py lines 69-84): appends an
error entry; the jsonl file write is I/O and dropped. -/
def logError (m : Metrics) (now : Int) (error_type : String)
    (error_message : String) : Metrics :=
  { m with errors := m.errors ++ [⟨now, error_type, error_message⟩] }

/-! ## Shared helper computations -/

/-- Python's `sum` over a list of booleans: the number of `True` entries. -/
def boolSum (l : List Bool) : Nat := l.countP id

/-- Python's `l[-10:]`: the suffix of the last (at most) ten elements. -/
def lastTen {α : Type} (l : List α) : List α := l.drop (l.length - 10)

/-- The recent-error count used by `_check_alerts` (monitoring.py lines
144-145) and `_get_system_status` (lines 159-160): the number of error
entries with `(datetime.now() - timestamp).seconds < 3600`.  For a timedelta
of `d` whole seconds, Python's `.seconds` is the normalised seconds
component `d.emod 86400` — NOT the total age in seconds. -/
def recentErrorsCount (now : Int) (errors : List ErrorLog) : Nat :=
  (errors.filter fun e => (now - e.timestamp).emod 86400 < 3600).length

/-! ## `_get_system_status` (monitoring.py lines 150-169) -/

/-- The `recent_agreements` local of `_get_system_status` (line 157):
the last ten agreements when at least ten exist, else all of them. -/
def statusRecentAgreements (m : Metrics) : List Bool :=
  if m.agreements.length ≥ 10 then lastTen m.agreements else m.agreements

/-- The `recent_times` local of `_get_system_status` (line 158). -/
def statusRecentTimes (m : Metrics) : List ℚ :=
  if m.response_times.length ≥ 10 then lastTen m.response_times else m.response_times

/-- `CreditRiskMonitor._get_system_status` (monitoring.py lines 150-169),
returning the source's Spanish status strings: INICIANDO = Starting,
CRÍTICO = Critical, ADVERTENCIA = Warning, DEGRADADO = Degraded,
SALUDABLE = Healthy. -/
def getSystemStatus (m : Metrics) (now : Int) : String :=
  if m.predictions.isEmpty then "INICIANDO"
  else if recentErrorsCount now m.errors > 5 then "CRÍTICO"
  else if (statusRecentAgreements m).length > 0 ∧
      (boolSum (statusRecentAgreements m) : ℚ) /
        ((statusRecentAgreements m).length : ℚ) < 7/10 then
    "ADVERTENCIA"
  else if (statusRecentTimes m).length > 0 ∧
      (statusRecentTimes m).sum / ((statusRecentTimes m).length : ℚ) > 5 then
    "DEGRADADO"
  else "SALUDABLE"

/-! ## `get_metrics_summary` (monitoring.py lines 86-115) -/

/-- The two shapes `get_metrics_summary` can return: the substitute
`{'message': ...}` dict when there are no predictions yet, or the full
metrics dict. -/
inductive Summary where
  | noData (message : String)
  | data (total_predictions : Nat) (agreement_rate : ℚ) (avg_response_time : ℚ)
      (ml_good ml_bad bedrock_good bedrock_bad : Nat) (total_errors : Nat)
      (recent_predictions : List PredictionLog) (status : String)
deriving DecidableEq, Repr

/-- Whether a summary is the full metrics dict (not the no-data message). -/
def Summary.isData : Summary → Bool
  | .noData _ => false
  | .data _ _ _ _ _ _ _ _ _ _ => true

/-- The `agreement_rate` field of a full summary. -/
def Summary.agreementRateVal : Summary → Option ℚ
  | .noData _ => none
  | .data _ r _ _ _ _ _ _ _ _ => some r

/-- The `avg_response_time` field of a full summary. -/
def Summary.avgResponseTimeVal : Summary → Option ℚ
  | .noData _ => none
  | .data _ _ t _ _ _ _ _ _ _ => some t

/-- The `recent_predictions` field of a full summary. -/
def Summary.recentPredictionsVal : Summary → Option (List PredictionLog)
  | .noData _ => none
  | .data _ _ _ _ _ _ _ _ rp _ => some rp

/-- `CreditRiskMonitor.get_metrics_summary` (monitoring.py lines 86-115).
Note that `agreement_rate` divides the `True`-count of the WHOLE
`agreements` list by the WHOLE `len(predictions)` (lines 93-94), and
`avg_response_time` averages the WHOLE `response_times` list (line 95);
only `recent_predictions` (line 104) and the status computation use a
last-ten window. -/
def getMetricsSummary (m : Metrics) (now : Int) : Summary :=
  if m.predictions.isEmpty then Summary.noData "No hay datos de predicciones aún"
  else
    let total_predictions := m.predictions.length
    let agreement_rate : ℚ := (boolSum m.agreements : ℚ) / (total_predictions : ℚ) * 100
    let avg_response_time : ℚ := m.response_times.sum / (m.response_times.length : ℚ)
    let ml_good := m.ml_predictions.count "good"
    let ml_bad := m.ml_predictions.count "bad"
    let bedrock_good := m.bedrock_predictions.count "good"
    let bedrock_bad := m.bedrock_predictions.count "bad"
    Summary.data total_predictions agreement_rate avg_response_time
      ml_good ml_bad bedrock_good bedrock_bad
      m.errors.length (lastTen m.predictions) (getSystemStatus m now)

/-- The summary query as a state-passing operation: the Python method only
reads `self.metrics` (monitoring.py lines 86-115 contain no write to it),
so the state comes back unchanged. -/
def getMetricsSummaryOp (m : Metrics) (now : Int) : Summary × Metrics :=
  (getMetricsSummary m now, m)

/-! ## `_check_alerts` (monitoring.py lines 122-148) -/

/-- The three alert conditions logged by `_check_alerts`. -/
inductive Alert where
  | LowAgreement
  | HighLatency
  | ErrorSpike
deriving DecidableEq, Repr

/-- The recent agreement rate used by `_check_alerts` (lines 129-134):
percentage of agreeing entries among the last ten prediction logs. -/
def alertAgreementRate (m : Metrics) : ℚ :=
  let recent_agreements := (lastTen m.predictions).map (·.agreement)
  (boolSum recent_agreements : ℚ) / (recent_agreements.length : ℚ) * 100

/-- The recent average response time used by `_check_alerts` (lines
131-135): arithmetic mean over the last ten prediction logs. -/
def alertAvgTime (m : Metrics) : ℚ :=
  let recent_times := (lastTen m.predictions).map (·.response_time)
  recent_times.sum / (recent_times.length : ℚ)

/-- `CreditRiskMonitor._check_alerts` (monitoring.py lines 122-148), with
the set of warnings it logs made explicit as a list.  The guard on line 125
returns early — logging NO alert of any kind — whenever fewer than ten
predictions are stored. -/
def checkAlerts (m : Metrics) (now : Int) : List Alert :=
  if m.predictions.length < 10 then []
  else
    (if alertAgreementRate m < 70 then [Alert.LowAgreement] else []) ++
    (if alertAvgTime m > 5 then [Alert.HighLatency] else []) ++
    (if recentErrorsCount now m.errors > 5 then [Alert.ErrorSpike] else [])

/-! ## The consensus recommendation (api_with_monitoring.py lines 124-130) -/

/-- The `recommendation` combination of `predict_credit_risk`
(api_with_monitoring.py lines 124-130).  The three source strings carry the
spec's decision/rationale pairs: RECHAZAR = Reject / both_high_risk,
APROBAR = Approve / both_low_risk, REVISAR MANUALMENTE = ManualReview /
models_disagree. -/
def recommendation (ml_pred : String) (bedrock_prediction : String) : String :=
  if ml_pred = "bad" ∧ bedrock_prediction = "bad" then
    "RECHAZAR - Ambos modelos predicen alto riesgo"
  else if ml_pred = "good" ∧ bedrock_prediction = "good" then
    "APROBAR - Ambos modelos predicen bajo riesgo"
  else
    "REVISAR MANUALMENTE - Modelos discrepan"

/-! ## `BedrockClient._parse_classification_response` (data_generation.py
lines 180-207)

The Python code extracts the substring between the first opening brace and
the last closing brace, tries `json.loads` on it, and returns the parsed
dict AS-IS whenever it contains the keys `prediction` and `confidence`;
if `json.loads` raises, the enclosing `except` returns the unknown/0.0
"Parse error" dict; if the braces are absent or the parsed dict lacks a
required key, a case-insensitive substring search over the whole response
decides a good/0.6, bad/0.6 or unknown/0.0 fallback.

`json.loads` is modelled on the fragment the classifier prompt asks for —
a flat object of string keys with string or (decimal) number values, no
escape sequences — by `jsonLoads` below; inputs outside this fragment are
parse failures, which the source maps to the unknown/0.0 "Parse error"
dict. -/

/-- A JSON value of the modelled fragment: a string or a number. -/
inductive JVal where
  | JStr (s : String)
  | JNum (q : ℚ)
deriving DecidableEq, Repr

/-- The opening-brace character, `chr 123`. -/
def lbrace : Char := Char.ofNat 123

/-- The closing-brace character, `chr 125`. -/
def rbrace : Char := Char.ofNat 125

/-- The double-quote character, `chr 34`. -/
def dquote : Char := Char.ofNat 34

/-- Drop leading JSON whitespace. -/
def skipWs : List Char → List Char
  | [] => []
  | c :: rest =>
    if c = ' ' ∨ c = '\n' ∨ c = '\t' ∨ c = '\r' then skipWs rest else c :: rest

/-- Parse a double-quoted string without escape sequences. -/
def parseJStr (l : List Char) : Option (String × List Char) :=
  match l with
  | [] => none
  | c :: rest =>
    if c = dquote then
      let content := rest.takeWhile (· ≠ dquote)
      match rest.drop content.length with
      | c2 :: rest2 => if c2 = dquote then some (String.mk content, rest2) else none
      | [] => none
    else none

/-- The value of a list of decimal digit characters. -/
def digitsVal (l : List Char) : Nat :=
  l.foldl (fun acc c => acc * 10 + (c.toNat - 48)) 0

/-- Parse a JSON number: optional minus sign, digits, optional fraction. -/
def parseJNum (l : List Char) : Option (ℚ × List Char) :=
  let p : Bool × List Char := match l with
    | c :: r => if c = '-' then (true, r) else (false, l)
    | [] => (false, l)
  let ds := p.2.takeWhile (·.isDigit)
  if ds.isEmpty then none
  else
    let afterInt := p.2.drop ds.length
    let intPart : ℚ := (digitsVal ds : ℚ)
    let q : ℚ × List Char := match afterInt with
      | c :: r =>
        if c = '.' then
          let fs := r.takeWhile (·.isDigit)
          if fs.isEmpty then (intPart, afterInt)
          else (intPart + (digitsVal fs : ℚ) / ((10 : ℚ) ^ fs.length), r.drop fs.length)
        else (intPart, afterInt)
      | [] => (intPart, afterInt)
    some (if p.1 then -q.1 else q.1, q.2)

/-- Parse one `"key": value` pair of the modelled JSON fragment. -/
def parseJPair (l : List Char) : Option ((String × JVal) × List Char) :=
  match parseJStr l with
  | none => none
  | some (key, rest) =>
    match skipWs rest with
    | c :: rest1 =>
      if c = ':' then
        let rest2 := skipWs rest1
        match parseJStr rest2 with
        | some (s, rest3) => some ((key, JVal.JStr s), rest3)
        | none =>
          match parseJNum rest2 with
          | some (q, rest3) => some ((key, JVal.JNum q), rest3)
          | none => none
      else none
    | [] => none

/-- Parse a comma-separated sequence of pairs; `fuel` bounds the number of
pairs and exceeds the input length wherever this is called. -/
def parseJMembers : Nat → List Char → Option (List (String × JVal) × List Char)
  | 0, _ => none
  | fuel + 1, l =>
    match parseJPair l with
    | none => none
    | some (kv, rest) =>
      match skipWs rest with
      | c :: rest1 =>
        if c = ',' then
          match parseJMembers fuel (skipWs rest1) with
          | some (kvs, rest2) => some (kv :: kvs, rest2)
          | none => none
        else some ([kv], c :: rest1)
      | [] => some ([kv], [])

/-- `json.loads` on the modelled fragment: a whole-input flat JSON object,
returned as an association list; `none` models a raised `JSONDecodeError`. -/
def jsonLoads (l : List Char) : Option (List (String × JVal)) :=
  match skipWs l with
  | [] => none
  | c :: rest =>
    if c = lbrace then
      match skipWs rest with
      | c1 :: rest1 =>
        if c1 = rbrace then
          if (skipWs rest1).isEmpty then some [] else none
        else
          match parseJMembers (l.length + 1) (c1 :: rest1) with
          | some (kvs, rest2) =>
            match skipWs rest2 with
            | c2 :: rest3 =>
              if c2 = rbrace ∧ (skipWs rest3).isEmpty then some kvs else none
            | [] => none
          | none => none
      | [] => none
    else none

/-- Python's `str.find`: index of the first occurrence, `-1` when absent. -/
def strFind (l : List Char) (c : Char) : Int :=
  match l.findIdx? (· = c) with
  | some i => (i : Int)
  | none => -1

/-- Python's `str.rfind`: index of the last occurrence, `-1` when absent. -/
def strRfind (l : List Char) (c : Char) : Int :=
  match l.reverse.findIdx? (· = c) with
  | some i => (l.length : Int) - 1 - (i : Int)
  | none => -1

/-- Python's `str.lower` on the ASCII range of the modelled inputs. -/
def strLower (s : String) : String := String.mk (s.toList.map Char.toLower)

/-- Whether `sub` starts `l`. -/
def startsWithSub : List Char → List Char → Bool
  | [], _ => true
  | _ :: _, [] => false
  | a :: as, b :: bs => a = b && startsWithSub as bs

/-- Python's `sub in l`: substring containment. -/
def containsSub (sub : List Char) : List Char → Bool
  | [] => sub.isEmpty
  | c :: rest => startsWithSub sub (c :: rest) || containsSub sub rest

/-- Whether the association list returned by `jsonLoads` has the key. -/
def hasKey (d : List (String × JVal)) (k : String) : Bool :=
  (d.lookup k).isSome

/-- How `_parse_classification_response` leaves its `try` block:
`passthrough d` — braces found, `json.loads` succeeded and both required
keys are present, so `d` is returned AS-IS (line 195);
`parseError` — braces found but `json.loads` raised (caught on line 205);
`fallbackSearch` — no brace pair, or a parsed dict missing a required key,
so control reaches the substring fallback (lines 198-203). -/
inductive ParseOutcome where
  | passthrough (d : List (String × JVal))
  | parseError
  | fallbackSearch
deriving DecidableEq, Repr

/-- Whether the outcome is the unvalidated pass-through of a parsed dict. -/
def ParseOutcome.isPassthrough : ParseOutcome → Bool
  | .passthrough _ => true
  | _ => false

/-- The brace-extraction and `json.loads` attempt of
`_parse_classification_response` (data_generation.py lines 185-195). -/
def classifyExtraction (text : String) : ParseOutcome :=
  let l := text.toList
  let start_idx := strFind l lbrace
  let end_idx := strRfind l rbrace + 1
  if start_idx ≠ -1 ∧ end_idx ≠ 0 then
    match jsonLoads ((l.take end_idx.toNat).drop start_idx.toNat) with
    | none => ParseOutcome.parseError
    | some d =>
      if hasKey d "prediction" ∧ hasKey d "confidence" then ParseOutcome.passthrough d
      else ParseOutcome.fallbackSearch
  else ParseOutcome.fallbackSearch

/-- `BedrockClient._parse_classification_response` (data_generation.py
lines 180-207), returning the classification dict as an association list. -/
def parseClassificationResponse (text : String) : List (String × JVal) :=
  match classifyExtraction text with
  | ParseOutcome.passthrough d => d
  | ParseOutcome.parseError =>
    [("prediction", JVal.JStr "unknown"), ("confidence", JVal.JNum 0),
     ("reasoning", JVal.JStr "Parse error")]
  | ParseOutcome.fallbackSearch =>
    if containsSub "good".toList (strLower text).toList then
      [("prediction", JVal.JStr "good"), ("confidence", JVal.JNum (6/10)),
       ("reasoning", JVal.JStr "Parsed from text")]
    else if containsSub "bad".toList (strLower text).toList then
      [("prediction", JVal.JStr "bad"), ("confidence", JVal.JNum (6/10)),
       ("reasoning", JVal.JStr "Parsed from text")]
    else
      [("prediction", JVal.JStr "unknown"), ("confidence", JVal.JNum 0),
       ("reasoning", JVal.JStr "Could not parse")]

/-- `BedrockClient.classify_credit_risk` (data_generation.py lines 96-149)
restricted to its observable result: on a successful remote call the
response text is parsed; on any exception (line 143) the unknown/0.0 error
dict is returned. -/
def classifyCreditRisk (response : Option String) : List (String × JVal) :=
  match response with
  | some text => parseClassificationResponse text
  | none =>
    [("prediction", JVal.JStr "unknown"), ("confidence", JVal.JNum 0),
     ("reasoning", JVal.JStr "Error")]

/-- The `prediction` field of a classification dict. -/
def resultLabel (d : List (String × JVal)) : Option JVal := d.lookup "prediction"

/-- The `confidence` field of a classification dict. -/
def resultConfidence (d : List (String × JVal)) : Option JVal := d.lookup "confidence"

/-! ## Spec-side comparison definitions

The spec claims the summary's rates are recent-window quantities; the next
four definitions name the lifetime formulas actually used by
`get_metrics_summary` and the recent-window formulas the spec describes, so
the two can be compared. -/

/-- The lifetime agreement rate: `sum(agreements) / len(predictions) * 100`
over the whole history (monitoring.py lines 93-94). -/
def lifetimeAgreementRate (m : Metrics) : ℚ :=
  (boolSum m.agreements : ℚ) / (m.predictions.length : ℚ) * 100

/-- The lifetime average response time over the whole history
(monitoring.py line 95). -/
def lifetimeAvgLatency (m : Metrics) : ℚ :=
  m.response_times.sum / (m.response_times.length : ℚ)

/-- The spec's recent-window agreement rate: percentage of agreeing entries
among the last K = 10 stored records. -/
def recentWindowAgreementRate (m : Metrics) : ℚ :=
  (boolSum (lastTen m.agreements) : ℚ) / ((lastTen m.agreements).length : ℚ) * 100

/-- The spec's recent-window average latency: arithmetic mean over the last
K = 10 stored records. -/
def recentWindowAvgLatency (m : Metrics) : ℚ :=
  (lastTen m.response_times).sum / ((lastTen m.response_times).length : ℚ)

/-- The spec's boundary property for a classification dict: a label from
the fixed set with an in-range confidence that is 0 on unknown. -/
def boundaryOk (d : List (String × JVal)) : Prop :=
  ∃ lab conf, resultLabel d = some (JVal.JStr lab) ∧
    resultConfidence d = some (JVal.JNum conf) ∧
    (lab = "good" ∨ lab = "bad" ∨ lab = "unknown") ∧
    0 ≤ conf ∧ conf ≤ 1 ∧ (lab = "unknown" → conf = 0)

/-! ## Concrete states used by the scenario theorems

All concrete states are built by folding `logPrediction` / `logError` over
the fresh state, so they are reachable states of the monitor with the
parallel lists in lockstep. -/

/-- Fold a batch of `(ml_result, bedrock_result, response_time)` triples
through `logPrediction` at time 0 (probability and confidence fixed). -/
def recordSeq (records : List (String × String × ℚ)) : Metrics :=
  records.foldl (fun m r => logPrediction m 0 r.1 (1/2) r.2.1 (3/5) r.2.2) initMetrics

/-- Nine predictions with alternating agreement (odd positions agree),
response time 1s each: five agreements out of nine. -/
def nineAltRecords : List (String × String × ℚ) :=
  [("good", "good", 1), ("good", "bad", 1), ("good", "good", 1), ("good", "bad", 1),
   ("good", "good", 1), ("good", "bad", 1), ("good", "good", 1), ("good", "bad", 1),
   ("good", "good", 1)]

/-- Nine alternating-agreement predictions. -/
def nineAltState : Metrics := recordSeq nineAltRecords

/-- Ten alternating-agreement predictions: recent agreement rate 50%. -/
def tenAltState : Metrics := recordSeq (nineAltRecords ++ [("good", "bad", 1)])

/-- A single prediction whose total latency is 6.0 seconds. -/
def oneHighLatencyState : Metrics := recordSeq [("good", "good", (6 : ℚ))]

/-- One disagreeing 100s-latency prediction followed by ten agreeing 0s
ones: lifetime and last-ten window quantities differ. -/
def elevenState : Metrics :=
  recordSeq
    [("good", "bad", 100), ("good", "good", 0), ("good", "good", 0), ("good", "good", 0),
     ("good", "good", 0), ("good", "good", 0), ("good", "good", 0), ("good", "good", 0),
     ("good", "good", 0), ("good", "good", 0), ("good", "good", 0)]

/-- A single agreeing prediction with latency 1s. -/
def oneRecordState : Metrics := recordSeq [("good", "good", (1 : ℚ))]

/-- Ten alternating predictions (agreement rate 50%) plus six errors logged
at time 0: both the Critical and the Warning conditions hold at time 0. -/
def criticalState : Metrics :=
  ["e1", "e2", "e3", "e4", "e5", "e6"].foldl
    (fun m s => logError m 0 "PREDICTION_ERROR" s) tenAltState

/-- The remote classifier answering with a label outside {good, bad,
unknown} and a confidence outside [0, 1], in valid JSON with both required
keys. -/
def c8BadResponse : String := "\x7b\"prediction\": \"GOOD\", \"confidence\": 5\x7d"

/-! ## Claim theorems -/

/-- Evaluation helper: the stored agreement flag of a good/bad pair. -/
theorem decideGoodBad : (decide (("good" : String) = "bad")) = false := rfl

/-- C1: for every pair of classifier labels both in {good, bad}, the
recommendation is the Approve string exactly when both are good, the Reject
string exactly when both are bad, and the ManualReview/models_disagree
string exactly when the two labels differ — full agreement is required for
any auto decision. -/
theorem c1_consensus_full_agreement (ml bd : String)
    (hml : ml = "good" ∨ ml = "bad") (hbd : bd = "good" ∨ bd = "bad") :
    (recommendation ml bd = "APROBAR - Ambos modelos predicen bajo riesgo" ↔
      ml = "good" ∧ bd = "good") ∧
    (recommendation ml bd = "RECHAZAR - Ambos modelos predicen alto riesgo" ↔
      ml = "bad" ∧ bd = "bad") ∧
    (recommendation ml bd = "REVISAR MANUALMENTE - Modelos discrepan" ↔ ml ≠ bd) := by
  rcases hml with h1 | h1 <;> rcases hbd with h2 | h2 <;> subst h1 <;> subst h2 <;> decide

/-- Witness for C1 at the concrete pair (good, good). -/
theorem c1_consensus_full_agreement_witness :
    recommendation "good" "good" = "APROBAR - Ambos modelos predicen bajo riesgo" :=
  ((c1_consensus_full_agreement "good" "good" (Or.inl rfl) (Or.inl rfl)).1).mpr ⟨rfl, rfl⟩

/-- C2 counterexample: on the pair (good, unknown) the code returns the
same "REVISAR MANUALMENTE - Modelos discrepan" string that carries the
models_disagree rationale (spec rule 4); there is no branch producing a
distinct classifier_unavailable rationale, so the claimed rule 1 does not
exist in the code. -/
theorem c2_unavailable_counterexample :
    recommendation "good" "unknown" = "REVISAR MANUALMENTE - Modelos discrepan" ∧
    recommendation "bad" "unknown" = "REVISAR MANUALMENTE - Modelos discrepan" := by
  decide

/-- C2 amended: for every pair in which at least one label is outside
{good, bad} (in particular unknown or error), the recommendation is
ManualReview — but carried by the catch-all models_disagree string, the
only ManualReview string the code has; the combination is total. -/
theorem c2_unavailable_amended (ml bd : String)
    (h : ¬(ml = "good" ∨ ml = "bad") ∨ ¬(bd = "good" ∨ bd = "bad")) :
    recommendation ml bd = "REVISAR MANUALMENTE - Modelos discrepan" := by
  unfold recommendation
  split_ifs with h1 h2 <;> first | rfl | (rcases h with h | h <;> simp_all)

/-- Witness for C2's amended theorem at the concrete pair (good, unknown). -/
theorem c2_unavailable_amended_witness :
    recommendation "good" "unknown" = "REVISAR MANUALMENTE - Modelos discrepan" :=
  c2_unavailable_amended "good" "unknown" (Or.inr (by simp))

/-- C7: the recent-error count the code actually computes keeps an error
whose age is 87000 seconds (1 day, 10 minutes — far older than 3600
seconds), because Python's `timedelta.seconds` is the age modulo 86400;
an error aged 7200 seconds is excluded.  The claim (and the source's own
"última hora" comment) say every error older than 3600 seconds is
excluded. -/
theorem c7_recent_error_window_bug :
    recentErrorsCount 100000 [⟨13000, "PREDICTION_ERROR", "boom"⟩] = 1 ∧
    (100000 : Int) - 13000 = 87000 ∧ (3600 : Int) < 87000 ∧
    recentErrorsCount 100000 [⟨92800, "PREDICTION_ERROR", "boom"⟩] = 0 := by
  decide

/-- C9: the summary query is a pure read: run from the same state at the
same current time it leaves the state unchanged, and a second call from
the resulting state returns the identical summary. -/
theorem c9_summary_idempotent (m : Metrics) (now : Int) :
    (getMetricsSummaryOp m now).2 = m ∧
    (getMetricsSummaryOp ((getMetricsSummaryOp m now).2) now).1 =
      (getMetricsSummaryOp m now).1 := ⟨rfl, rfl⟩

/-- C10 counterexample: on the empty window the summary is NOT the normal
result structure — it is the substitute `{'message': ...}` response
(monitoring.py lines 89-90), contradicting the claim's "including the
empty window with zero records". -/
theorem c10_empty_window_counterexample :
    getMetricsSummary initMetrics 0 = Summary.noData "No hay datos de predicciones aún" ∧
    (getMetricsSummary initMetrics 0).isData = false := ⟨rfl, rfl⟩

/-- C10 amended: for every NON-EMPTY state with fewer than k = 10 records
the summary uses all available records and returns the normal result
structure; only the zero-record state gets the substitute message
response.  With fewer than ten records the last-ten windows are the whole
respective lists. -/
theorem c10_few_records_amended (m : Metrics) (now : Int)
    (h : m.predictions.isEmpty = false) :
    (getMetricsSummary m now).isData = true ∧
    (getMetricsSummary m now).recentPredictionsVal = some (lastTen m.predictions) ∧
    (m.predictions.length ≤ 10 → lastTen m.predictions = m.predictions) ∧
    (m.agreements.length < 10 → statusRecentAgreements m = m.agreements) ∧
    (m.response_times.length < 10 → statusRecentTimes m = m.response_times) := by
  refine ⟨?_, ?_, ?_, ?_, ?_⟩
  · simp [getMetricsSummary, h, Summary.isData]
  · simp [getMetricsSummary, h, Summary.recentPredictionsVal]
  · intro hlen
    simp [lastTen, Nat.sub_eq_zero_of_le hlen]
  · intro hlen
    rw [statusRecentAgreements, if_neg (by omega)]
  · intro hlen
    rw [statusRecentTimes, if_neg (by omega)]

/-- Witness for C10's amended theorem at a one-record state. -/
theorem c10_few_records_amended_witness :
    (getMetricsSummary oneRecordState 0).isData = true ∧
    (getMetricsSummary oneRecordState 0).recentPredictionsVal =
      some (lastTen oneRecordState.predictions) :=
  ⟨(c10_few_records_amended oneRecordState 0 (by decide)).1,
   (c10_few_records_amended oneRecordState 0 (by decide)).2.1⟩

/-- C3 counterexample: after a single prediction with total latency 6.0
seconds the recent window has one sample, its average latency is 6.0 > 5.0
— yet NO alert fires, because `_check_alerts` returns before evaluating
any rule whenever fewer than ten predictions are stored (monitoring.py
lines 125-126): the 10-sample minimum gates HighLatency (and ErrorSpike)
too, not only LowAgreement. -/
theorem c3_high_latency_counterexample :
    oneHighLatencyState.predictions.length = 1 ∧
    alertAvgTime oneHighLatencyState > 5 ∧
    checkAlerts oneHighLatencyState 0 = [] := by
  refine ⟨by decide, ?_, by decide⟩
  norm_num [alertAvgTime, oneHighLatencyState, recordSeq, logPrediction, initMetrics, lastTen]

/-- C3 amended: the HighLatency alert fires exactly when at least ten
predictions are stored AND the average latency of the last ten exceeds 5.0
seconds — the 10-sample minimum applies to every alert, HighLatency
included. -/
theorem c3_high_latency_amended (m : Metrics) (now : Int) :
    Alert.HighLatency ∈ checkAlerts m now ↔
      10 ≤ m.predictions.length ∧ alertAvgTime m > 5 := by
  unfold checkAlerts
  by_cases hlen : m.predictions.length < 10
  · rw [if_pos hlen]
    simp only [List.not_mem_nil, false_iff, not_and]
    intro h10
    omega
  · rw [if_neg hlen]
    have h10 : 10 ≤ m.predictions.length := by omega
    by_cases ha : alertAgreementRate m < 70 <;>
      by_cases hb : alertAvgTime m > 5 <;>
      by_cases hc : recentErrorsCount now m.errors > 5 <;>
      simp [ha, hb, hc, h10]

/-- C6: the LowAgreement alert fires exactly when at least ten predictions
are stored AND the agreement rate over the last ten is below 70%; in the
claim's scenario, nine alternating-agreement records (rate 55.6% < 70%)
fire nothing, and the tenth record, pushing the recent rate to 50%, makes
LowAgreement fire. -/
theorem c6_low_agreement_gate :
    (∀ (m : Metrics) (now : Int),
      Alert.LowAgreement ∈ checkAlerts m now ↔
        10 ≤ m.predictions.length ∧ alertAgreementRate m < 70) ∧
    alertAgreementRate nineAltState < 70 ∧
    checkAlerts nineAltState 0 = [] ∧
    alertAgreementRate tenAltState = 50 ∧
    Alert.LowAgreement ∈ checkAlerts tenAltState 0 := by
  have H : ∀ (m : Metrics) (now : Int),
      Alert.LowAgreement ∈ checkAlerts m now ↔
        10 ≤ m.predictions.length ∧ alertAgreementRate m < 70 := by
    intro m now
    unfold checkAlerts
    by_cases hlen : m.predictions.length < 10
    · rw [if_pos hlen]
      simp only [List.not_mem_nil, false_iff, not_and]
      intro h10
      omega
    · rw [if_neg hlen]
      have h10 : 10 ≤ m.predictions.length := by omega
      by_cases ha : alertAgreementRate m < 70 <;>
        by_cases hb : alertAvgTime m > 5 <;>
        by_cases hc : recentErrorsCount now m.errors > 5 <;>
        simp [ha, hb, hc, h10]
  have hten : alertAgreementRate tenAltState = 50 := by
    norm_num [alertAgreementRate, tenAltState, nineAltRecords, recordSeq, logPrediction,
      initMetrics, lastTen, boolSum, decideGoodBad]
  refine ⟨H, ?_, by decide, hten, (H tenAltState 0).mpr ⟨by decide, by rw [hten]; norm_num⟩⟩
  norm_num [alertAgreementRate, nineAltState, nineAltRecords, recordSeq, logPrediction,
    initMetrics, lastTen, boolSum, decideGoodBad]

/-- C4 counterexample: in a state of eleven records (one old disagreeing
100s-latency record, then ten agreeing 0s ones) the summary reports
agreement rate 1000/11 ≈ 90.9% and average latency 100/11 ≈ 9.09s — the
lifetime values — while the recent last-ten window has agreement rate 100%
and average latency 0s: the summary is NOT computed over the recent
window. -/
theorem c4_summary_lifetime_counterexample :
    (getMetricsSummary elevenState 0).agreementRateVal = some (1000/11) ∧
    recentWindowAgreementRate elevenState = 100 ∧
    (1000/11 : ℚ) ≠ 100 ∧
    (getMetricsSummary elevenState 0).avgResponseTimeVal = some (100/11) ∧
    recentWindowAvgLatency elevenState = 0 ∧
    (100/11 : ℚ) ≠ 0 := by
  refine ⟨?_, ?_, by norm_num, ?_, ?_, by norm_num⟩ <;>
    norm_num [getMetricsSummary, elevenState, recordSeq, logPrediction, initMetrics,
      Summary.agreementRateVal, Summary.avgResponseTimeVal, recentWindowAgreementRate,
      recentWindowAvgLatency, lastTen, boolSum, decideGoodBad]

/-- C4 amended: the agreement rate and average latency reported by the
summary query are the lifetime quantities — computed over the entire
stored history of predictions — not over the last K = 10 records. -/
theorem c4_summary_lifetime_amended (m : Metrics) (now : Int)
    (h : m.predictions.isEmpty = false) :
    (getMetricsSummary m now).agreementRateVal = some (lifetimeAgreementRate m) ∧
    (getMetricsSummary m now).avgResponseTimeVal = some (lifetimeAvgLatency m) := by
  constructor <;>
    simp [getMetricsSummary, h, Summary.agreementRateVal, Summary.avgResponseTimeVal,
      lifetimeAgreementRate, lifetimeAvgLatency]

/-- Witness for C4's amended theorem at the eleven-record state. -/
theorem c4_summary_lifetime_amended_witness :
    (getMetricsSummary elevenState 0).agreementRateVal =
      some (lifetimeAgreementRate elevenState) :=
  (c4_summary_lifetime_amended elevenState 0 (by decide)).1

/-- C5: the derived status follows the priority order of
`_get_system_status`: empty history gives INICIANDO (Starting); else a
recent-error count above 5 gives CRÍTICO (Critical) regardless of every
other condition; else a non-empty recent agreement window with rate below
0.7 gives ADVERTENCIA (Warning); else a non-empty recent latency window
with mean above 5s gives DEGRADADO (Degraded); else SALUDABLE (Healthy). -/
theorem c5_status_priority (m : Metrics) (now : Int) :
    (m.predictions.isEmpty = true → getSystemStatus m now = "INICIANDO") ∧
    (m.predictions.isEmpty = false → 5 < recentErrorsCount now m.errors →
      getSystemStatus m now = "CRÍTICO") ∧
    (m.predictions.isEmpty = false → recentErrorsCount now m.errors ≤ 5 →
      0 < (statusRecentAgreements m).length →
      (boolSum (statusRecentAgreements m) : ℚ) /
        ((statusRecentAgreements m).length : ℚ) < 7/10 →
      getSystemStatus m now = "ADVERTENCIA") ∧
    (m.predictions.isEmpty = false → recentErrorsCount now m.errors ≤ 5 →
      ¬(0 < (statusRecentAgreements m).length ∧
        (boolSum (statusRecentAgreements m) : ℚ) /
          ((statusRecentAgreements m).length : ℚ) < 7/10) →
      0 < (statusRecentTimes m).length →
      (statusRecentTimes m).sum / ((statusRecentTimes m).length : ℚ) > 5 →
      getSystemStatus m now = "DEGRADADO") ∧
    (m.predictions.isEmpty = false → recentErrorsCount now m.errors ≤ 5 →
      ¬(0 < (statusRecentAgreements m).length ∧
        (boolSum (statusRecentAgreements m) : ℚ) /
          ((statusRecentAgreements m).length : ℚ) < 7/10) →
      ¬(0 < (statusRecentTimes m).length ∧
        (statusRecentTimes m).sum / ((statusRecentTimes m).length : ℚ) > 5) →
      getSystemStatus m now = "SALUDABLE") := by
  refine ⟨fun h1 => ?_, fun h1 h2 => ?_, fun h1 h2 h3 h4 => ?_,
    fun h1 h2 h3 h4 h5 => ?_, fun h1 h2 h3 h4 => ?_⟩ <;> unfold getSystemStatus
  · rw [if_pos h1]
  · rw [if_neg (by simp [h1]), if_pos h2]
  · rw [if_neg (by simp [h1]), if_neg (by omega), if_pos ⟨h3, h4⟩]
  · rw [if_neg (by simp [h1]), if_neg (by omega), if_neg h3, if_pos ⟨h4, h5⟩]
  · rw [if_neg (by simp [h1]), if_neg (by omega), if_neg h3, if_neg h4]

/-- Witness for C5 at the state with ten alternating predictions (recent
agreement rate 50%, which alone would give ADVERTENCIA) and six errors at
the current time: the status is CRÍTICO, not ADVERTENCIA. -/
theorem c5_status_priority_witness :
    5 < recentErrorsCount 0 criticalState.errors ∧
    (boolSum (statusRecentAgreements criticalState) : ℚ) /
      ((statusRecentAgreements criticalState).length : ℚ) < 7/10 ∧
    getSystemStatus criticalState 0 = "CRÍTICO" :=
  ⟨by decide,
   by
     norm_num [statusRecentAgreements, criticalState, tenAltState, nineAltRecords,
       recordSeq, logPrediction, logError, initMetrics, lastTen, boolSum, decideGoodBad],
   (c5_status_priority criticalState 0).2.1 (by decide) (by decide)⟩

/-- C8 counterexample: on the response text `{"prediction": "GOOD",
"confidence": 5}` — valid JSON with both required keys — the parsed dict is
returned AS-IS (data_generation.py line 195): the label "GOOD" is outside
the fixed set {good, bad, unknown} (and, being case-sensitive, never
compares equal to the local model's "good"), and the confidence 5 is
outside [0, 1]; both cross the ClassificationResult boundary unvalidated. -/
theorem c8_boundary_counterexample :
    resultLabel (parseClassificationResponse c8BadResponse) = some (JVal.JStr "GOOD") ∧
    resultConfidence (parseClassificationResponse c8BadResponse) = some (JVal.JNum 5) ∧
    ¬("GOOD" = "good" ∨ "GOOD" = "bad" ∨ "GOOD" = "unknown") ∧
    ¬((5 : ℚ) ≤ 1) := by
  refine ⟨by decide, by decide, by decide, by norm_num⟩

/-- C8 amended: whenever the brace-extraction/`json.loads`/required-keys
path does NOT hand the parsed dict through unvalidated, the resulting
label is drawn from {good, bad, unknown} with confidence in [0, 1], the
confidence is 0 when the label is unknown, and a failed remote call also
yields unknown with confidence 0; but a successfully parsed JSON object
with both keys passes its prediction and confidence through with no
validation at all. -/
theorem c8_boundary_amended (text : String)
    (h : (classifyExtraction text).isPassthrough = false) :
    boundaryOk (parseClassificationResponse text) ∧
    boundaryOk (classifyCreditRisk none) := by
  constructor
  · unfold parseClassificationResponse
    cases hc : classifyExtraction text with
    | passthrough d =>
      rw [hc] at h
      simp [ParseOutcome.isPassthrough] at h
    | parseError =>
      exact ⟨"unknown", 0, rfl, rfl, Or.inr (Or.inr rfl), le_refl 0, by norm_num,
        fun _ => rfl⟩
    | fallbackSearch =>
      split_ifs with h1 h2
      · exact ⟨"good", 6/10, rfl, rfl, Or.inl rfl, by norm_num, by norm_num,
          fun hg => absurd hg (by decide)⟩
      · exact ⟨"bad", 6/10, rfl, rfl, Or.inr (Or.inl rfl), by norm_num, by norm_num,
          fun hg => absurd hg (by decide)⟩
      · exact ⟨"unknown", 0, rfl, rfl, Or.inr (Or.inr rfl), le_refl 0, by norm_num,
          fun _ => rfl⟩
  · exact ⟨"unknown", 0, rfl, rfl, Or.inr (Or.inr rfl), le_refl 0, by norm_num,
      fun _ => rfl⟩

/-- Witness for C8's amended theorem at a brace-free response text taking
the substring fallback. -/
theorem c8_boundary_amended_witness :
    boundaryOk (parseClassificationResponse "the applicant profile looks good") ∧
    boundaryOk (classifyCreditRisk none) :=
  c8_boundary_amended "the applicant profile looks good" (by decide)
